import Mathlib

/-!
Verification of the SIC/XE toolchain (assembler, linking loader, simulator)
against its natural-language specification.

The C sources are shallowly embedded: every definition below is translated
from a named function of the repository (file and line numbers are given in
the doc comments).  Machine integers are modelled as `Int`/`Nat` with explicit
reductions modulo `2 ^ 32` exactly where the C performs 32-bit arithmetic or
prints through a `%X` conversion (which casts `int` to `unsigned int`).
C strings are modelled as `String`/`List Char`; `NULL` pointers of optional
arguments as `Option`.  The float comparisons of assembler.c (`fabsf`,
`EPSILON = 1e-3f`) are modelled exactly over `Int` in units of 1/1000: every
format value that can reach them (0, 1, 2, 3, and the 3.5 documented in
opcode.h) is a multiple of 1/2 and exactly representable in IEEE single
precision, so each distance `fabsf(c - format)` is exactly 0 or at least
0.5, and comparing it with `1e-3f` (whose value lies strictly between 0 and
0.5) gives the same truth value as comparing the distance in milli-units
with 1.
-/

namespace SicXE

/-! ## printf-style hexadecimal formatting -/

/-- Upper-case hexadecimal digit, as produced by the `%X` conversions used
throughout the repository. -/
def hexDigit (n : Nat) : Char :=
  if n < 10 then Char.ofNat (48 + n) else Char.ofNat (55 + n)

/-- Fuelled digit accumulation for `natHex`.  The fuel 16 bounds the digit
count; every value printed by the repository fits in 32 bits, hence in at
most 8 hexadecimal digits. -/
def natHexLoop : Nat → Nat → List Char → List Char
  | 0, _, acc => acc
  | _ + 1, 0, acc => acc
  | fuel + 1, n, acc => natHexLoop fuel (n / 16) (hexDigit (n % 16) :: acc)

/-- Minimal upper-case hexadecimal rendering of a natural number. -/
def natHex (n : Nat) : List Char :=
  if n = 0 then ['0'] else natHexLoop 16 n []

/-- Value of a C `int` reinterpreted as `unsigned int`, as done by the `%X`
printf conversion: negative values wrap modulo `2 ^ 32`. -/
def uintOf (v : Int) : Nat :=
  (v.emod (2 ^ 32)).toNat

/-- Semantics of `sprintf` with a `%0wX` conversion applied to a C `int`:
zero-padded to `w` digits, wider if the value needs more digits. -/
def printfHexU (w : Nat) (v : Int) : String :=
  let ds := natHex (uintOf v)
  String.mk (List.replicate (w - ds.length) '0' ++ ds)

/-- Semantics of `sprintf` with `%-6s` applied to a non-`NULL` string:
left-justified, blank-padded to six characters, never truncated. -/
def printfLeft6 (s : String) : String :=
  s ++ String.mk (List.replicate (6 - s.length) ' ')

/-! ## strtol -/

/-- Whitespace recognised by `strtol` via `isspace`. -/
def isCSpace (c : Char) : Bool :=
  c = ' ' || c = '\t' || c = '\n' || c = '\x0b' || c = '\x0c' || c = '\x0d'

/-- Decimal digit test. -/
def isDecDigit (c : Char) : Bool :=
  48 ≤ c.toNat && c.toNat ≤ 57

/-- Hexadecimal digit test. -/
def isHexDigitC (c : Char) : Bool :=
  isDecDigit c || (65 ≤ c.toNat && c.toNat ≤ 70) || (97 ≤ c.toNat && c.toNat ≤ 102)

/-- Numeric value of a digit accepted by `isHexDigitC`. -/
def hexVal (c : Char) : Nat :=
  if isDecDigit c then c.toNat - 48
  else if 65 ≤ c.toNat && c.toNat ≤ 70 then c.toNat - 55
  else c.toNat - 87

/-- Digit-consuming loop of `strtol`: reads digits of the given base until
the first non-digit, accumulating the value. -/
def strtolDigits (base : Nat) (isDigit : Char → Bool) : List Char → Nat → Nat
  | [], acc => acc
  | c :: cs, acc =>
      if isDigit c then strtolDigits base isDigit cs (acc * base + hexVal c) else acc

/-- `strtol(s, NULL, base)` as used by the repository: skip leading
whitespace, consume an optional sign, then digits of the base until the
first non-digit; no digits yield 0.  (The repository never passes strings
with a `0x` prefix, which is therefore not modelled.) -/
def strtolChars (base : Nat) (isDigit : Char → Bool) : List Char → Int
  | [] => 0
  | c :: cs =>
      if isCSpace c then strtolChars base isDigit cs
      else if c = '-' then -(strtolDigits base isDigit cs 0 : Int)
      else if c = '+' then (strtolDigits base isDigit cs 0 : Int)
      else (strtolDigits base isDigit (c :: cs) 0 : Int)

/-- `strtol(s, NULL, 16)`. -/
def strtolHex (s : String) : Int :=
  strtolChars 16 isHexDigitC s.toList

/-- `strtol(s, NULL, 10)`. -/
def strtolDec (s : String) : Int :=
  strtolChars 10 isDecDigit s.toList

/-! ## Symbol table (symbol.c)

The working symbol table is an array of 26 bucket lists indexed by
`symbol[0] - 'A'` (symbol.c:51,167).  Labels handled by the assembler start
with an upper-case letter; a first character outside `A`..`Z` indexes the C
array out of bounds (undefined behaviour) and is not modelled. -/

/-- One node of a bucket chain (struct symbol, symbol.c:16). -/
structure SymEntry where
  symbol : String
  locctr : Int
deriving DecidableEq, Repr

/-- The working symbol table: 26 bucket chains (symbol.c:85,251). -/
abbrev SymTable := List (List SymEntry)

/-- `symbol_new_table` (symbol.c:251): all 26 buckets empty. -/
def symbol_new_table : SymTable :=
  List.replicate 26 []

/-- The constant register table `_register_table` (symbol.c:61), in source
order. -/
def registerTable : List (String × Int) :=
  [("A", 0), ("X", 1), ("L", 2), ("PC", 8), ("SW", 9),
   ("B", 3), ("S", 4), ("T", 5), ("F", 6)]

/-- `symbol_compare_string` (symbol.c:354): compare character codes over the
common prefix, then lengths. -/
def symbol_compare_chars : List Char → List Char → Int
  | [], l2 => -(l2.length : Int)
  | l1, [] => (l1.length : Int)
  | c1 :: t1, c2 :: t2 =>
      if c1 ≠ c2 then (c1.toNat : Int) - (c2.toNat : Int)
      else symbol_compare_chars t1 t2

/-- `symbol_compare_string` on `String`. -/
def symbol_compare_string (s1 s2 : String) : Int :=
  symbol_compare_chars s1.toList s2.toList

/-- Bucket index `symbol[0] - 'A'` (symbol.c:167). -/
def bucketKey (s : String) : Nat :=
  (s.toList.headD 'A').toNat - 65

/-- The bucket-chain insertion of `symbol_insert_symbol` (symbol.c:169-195).
The non-head branch mirrors the source exactly: after the walk,
`prev->next = new_symbol` links the new node, whose `next` field is still
`NULL` because line 193 reads `new_symbol = walk;` (a dead store to the
local) instead of `new_symbol->next = walk;` — so every node from `walk`
onwards is dropped from the chain. -/
def insertBucket (l : List SymEntry) (e : SymEntry) : List SymEntry :=
  match l with
  | [] => [e]
  | x :: xs =>
      if 0 < symbol_compare_string x.symbol e.symbol then e :: x :: xs
      else x :: (xs.takeWhile (fun w => symbol_compare_string w.symbol e.symbol < 0)) ++ [e]

/-- `symbol_is_register` (symbol.c:233). -/
def symbol_is_register (s : String) : Bool :=
  registerTable.any (fun r => r.1 == s)

/-- `symbol_is_exist` (symbol.c:200): the constant register table is
consulted before the user bucket chains. -/
def symbol_is_exist (t : SymTable) (s : String) : Bool :=
  registerTable.any (fun r => r.1 == s) ||
    t.any (fun bucket => bucket.any (fun e => e.symbol == s))

/-- `symbol_insert_symbol` (symbol.c:147): fails on an existing symbol,
otherwise inserts into the bucket selected by the first character. -/
def symbol_insert_symbol (t : SymTable) (s : String) (loc : Int) : Bool × SymTable :=
  if symbol_is_exist t s then (false, t)
  else
    let key := bucketKey s
    (true, t.set key (insertBucket (t.getD key []) ⟨s, loc⟩))

/-- `symbol_get_locctr` (symbol.c:106): registers first, then the working
table; `-1` when not found. -/
def symbol_get_locctr (t : SymTable) (s : String) : Int :=
  match registerTable.find? (fun r => r.1 == s) with
  | some r => r.2
  | none =>
      match t.findSome? (fun bucket => bucket.find? (fun e => e.symbol == s)) with
      | some e => e.locctr
      | none => -1

/-! ## Assembler error record (symbol.c:40, symbol.h:12)

symbol.c additionally uses `INVALID_OPERAND` (symbol.c:303), which the
(stale) enum in symbol.h omits; the definition below follows symbol.c. -/

/-- Error kinds recorded by `symbol_set_error`. -/
inductive SymbolErrorKind where
  | NONE
  | DUPLICATE_SYMBOL
  | INVALID_OPCODE
  | INVALID_OPERAND
  | REQUIRED_ONE_OPERAND
  | REQUIRED_TWO_OPERANDS
deriving DecidableEq, Repr

/-- The `_symbol_error` record: kind, line, keyword (symbol.c:40). -/
structure AsmError where
  kind : SymbolErrorKind
  line : Int
  keyword : String
deriving DecidableEq, Repr

/-- Result type for assembler steps: a value, or a recorded
`_symbol_error` (the C signals the error case by returning `false` after
`symbol_set_error`). -/
inductive AsmRes (α : Type) where
  | ok : α → AsmRes α
  | err : AsmError → AsmRes α
deriving DecidableEq, Repr

/-- The label handling at the top of the pass-1 loop
(assembler.c:619-634): an existing symbol — including every register name,
which `symbol_is_exist` reports before the user table — is a
`DUPLICATE_SYMBOL` error; otherwise the label is inserted at the current
locctr.  The `insertion failed` branch of the source is unreachable here
because insertion was guarded by the same existence test; it is mapped to
kind `NONE`. -/
def assembler_pass1_handle_label (t : SymTable) (label : Option String)
    (line locctr : Int) : AsmRes SymTable :=
  match label with
  | none => .ok t
  | some lbl =>
      if symbol_is_exist t lbl then .err ⟨.DUPLICATE_SYMBOL, line, lbl⟩
      else
        let r := symbol_insert_symbol t lbl locctr
        if r.1 then .ok r.2 else .err ⟨.NONE, line, lbl⟩

/-! ## Memory image (memspace.c) -/

/-- The 1 MiB memory image, modelled sparsely: unlisted addresses hold 0,
matching the zero-initialised `_memory` array (memspace.c:78). -/
abbrev Mem := List (Nat × Nat)

/-- Read one byte of the image. -/
def memRead (m : Mem) (a : Nat) : Nat :=
  ((m.find? (fun p => p.1 == a)).map (fun p => p.2)).getD 0

/-- Write one byte of the image. -/
def memWrite (m : Mem) (a v : Nat) : Mem :=
  (a, v) :: m.filter (fun p => p.1 != a)

/-- `ADDRESS_MAX` (memspace.c:28). -/
def ADDRESS_MAX : Int := 0xFFFFF

/-- `memspace_get_memory` (memspace.c:163): returns `none` exactly when one
of the source's two range checks fires — `address` outside
`[0, 0xFFFFF]`, or `ADDRESS_MAX < address + byte_count` (memspace.c:173).
On success it returns the `byte_count` bytes starting at `address`.
(The third check of the source, a `NULL` output pointer, is an artefact of
the C calling convention and has no counterpart here.) -/
def memspace_get_memory (m : Mem) (address byte_count : Int) : Option (List Nat) :=
  if address < 0 || ADDRESS_MAX < address then none
  else if ADDRESS_MAX < address + byte_count then none
  else some ((List.range byte_count.toNat).map (fun i => memRead m (address.toNat + i)))

/-- Modelled from the spec: `memspace_set_memory` is declared in
memspace.h:53 and called by loader.c and debugger.c, but its definition is
missing from the sources.  Per spec section 4.4, `set(addr, bytes)` is
bounds-checked — it fails when `address` or `address + n - 1` is outside
`[0, 0xFFFFF]` — and otherwise stores the bytes. -/
def memspace_set_memory (m : Mem) (address : Int) (bytes : List Nat) : Option Mem :=
  if address < 0 || ADDRESS_MAX < address + (bytes.length : Int) - 1 then none
  else some ((bytes.enum.map (fun p => (address.toNat + p.1, p.2))).foldl
    (fun acc q => memWrite acc q.1 q.2) m)

/-! ## Opcode dictionary (opcode.c) -/

/-- One entry of the opcode table (struct opcode, opcode.c:36): numeric
opcode, four format bits, mnemonic. -/
structure OpEntry where
  opcode : Nat
  format1 : Bool
  format2 : Bool
  format3 : Bool
  format4 : Bool
  mnemonic : String
deriving DecidableEq, Repr

/-- The opcode dictionary.  The C hash table (opcode.c:74) partitions the
entries of opcode.txt into buckets, but `opcode_search_opcode`
(opcode.c:412) compares full mnemonic strings within a bucket, so for the
distinct mnemonics of opcode.txt a lookup returns the same entry as a scan
of one association list, which is how the table is modelled. -/
abbrev OpTable := List OpEntry

/-- `opcode_search_opcode` (opcode.c:412). -/
def opcode_search_opcode (tbl : OpTable) (m : String) : Option OpEntry :=
  tbl.find? (fun e => e.mnemonic == m)

/-- `opcode_is_opcode` (opcode.c:218). -/
def opcode_is_opcode (tbl : OpTable) (m : String) : Bool :=
  (opcode_search_opcode tbl m).isSome

/-- `opcode_get_opcode` (opcode.c:192): the numeric opcode, or -1. -/
def opcode_get_opcode (tbl : OpTable) (m : String) : Int :=
  match opcode_search_opcode tbl m with
  | some e => (e.opcode : Int)
  | none => -1

/-- `opcode_get_format` as DEFINED in opcode.c:156-185: an `int` function
returning 1 for format 1, 2 for format 2, 3 for format 3/4 and 0 when the
mnemonic is unknown.  The result is stated in milli-units (1 = 1000)
because every caller (assembler.c:638,659,923) receives it through the
`float` prototype of opcode.h:23 and compares it against float constants;
see the module comment for the exactness of this model. -/
def opcode_get_format (tbl : OpTable) (m : String) : Int :=
  match opcode_search_opcode tbl m with
  | some e => if e.format1 then 1000 else if e.format2 then 2000 else 3000
  | none => 0

/-- `opcode_get_format` as DECLARED in opcode.h:18-23, the interface
assembler.c is compiled against: "1.0 if format 1, 2.0 if format 2, 3.5 if
format 3/4, and 0.0 if invalid mnemonic", in the same milli-units (3.5 =
3500).  The definition in opcode.c (see `opcode_get_format`) returns the
`int` 3 where this contract promises 3.5; the two disagree on every
format-3/4 mnemonic. -/
def opcode_get_format_as_declared (tbl : OpTable) (m : String) : Int :=
  match opcode_search_opcode tbl m with
  | some e => if e.format1 then 1000 else if e.format2 then 2000 else 3500
  | none => 0

/-! ## Assembler pass 1: tokenizing and instruction lengths (assembler.c) -/

/-- The directive list `DIRECTIVES` (assembler.c:80). -/
def DIRECTIVES : List String :=
  ["START", "END", "BYTE", "WORD", "RESB", "RESW", "BASE", "NOBASE"]

/-- The comparison pattern `fabsf(c - format) <= EPSILON` of
assembler.c:639-660 and 924-956, with both sides in milli-units
(`EPSILON` is `1e-3f`, assembler.c:98).  Exact for every value that reaches
it: the distances are 0 or at least 0.5 (0 or at least 500 milli-units)
and `1e-3f` lies strictly between 0 and 0.5. -/
def floatNearEps (c format : Int) : Bool :=
  (c - format).natAbs ≤ 1

/-- Character of a C string at an index: a read past the terminator of a
short string yields the NUL byte. -/
def charAt (s : String) (i : Nat) : Char :=
  s.toList.getD i (Char.ofNat 0)

/-- `assembler_is_mnemonic` (assembler.c:499): a directive, or (after
stripping one leading `+`) a mnemonic of the opcode table. -/
def assembler_is_mnemonic (tbl : OpTable) (s : String) : Bool :=
  DIRECTIVES.any (fun d => d == s) ||
    opcode_is_opcode tbl (if charAt s 0 = '+' then s.drop 1 else s)

/-- The character test of the `BYTE` operand loop (assembler.c:686-687):
upper-case letter or digit. -/
def byteCharOk (c : Char) : Bool :=
  (65 ≤ c.toNat && c.toNat ≤ 90) || (48 ≤ c.toNat && c.toNat ≤ 57)

/-- The instruction-length computation of the pass-1 loop body
(assembler.c:636-749), parameterised by the format oracle so that both the
definition of opcode.c and the declared contract of opcode.h can be
supplied.  `op0`/`op1` are `operands[0]`/`operands[1]` (`NULL` = `none`).
The `BASE`/`NOBASE` branch does nothing; `instruction_len` was reset to 0
after the previous line (assembler.c:753), so the emitted length is 0. -/
def assembler_pass1_instruction_len (getFormat : String → Int) (tbl : OpTable)
    (line : Int) (mnemonic : String) (op0 op1 : Option String) : AsmRes Int :=
  if opcode_is_opcode tbl mnemonic then
    let format := getFormat mnemonic
    if floatNearEps 1000 format then .ok 1
    else if floatNearEps 2000 format then .ok 2
    else if floatNearEps 3500 format then .ok 3
    else .err ⟨.INVALID_OPCODE, line, mnemonic⟩
  else if charAt mnemonic 0 = '+' && opcode_is_opcode tbl (mnemonic.drop 1) then
    let format := getFormat (mnemonic.drop 1)
    if floatNearEps 3500 format then .ok 4
    else .err ⟨.INVALID_OPCODE, line, mnemonic⟩
  else if mnemonic == "BYTE" then
    match op0, op1 with
    | none, _ => .err ⟨.REQUIRED_ONE_OPERAND, line, mnemonic⟩
    | some _, some _ => .err ⟨.REQUIRED_ONE_OPERAND, line, mnemonic⟩
    | some op, none =>
        if charAt op 1 ≠ '\'' || charAt op (op.length - 1) ≠ '\'' then
          .err ⟨.INVALID_OPERAND, line, op⟩
        else if !(op.toList.drop 2).dropLast.all byteCharOk then
          .err ⟨.INVALID_OPERAND, line, op⟩
        else if charAt op 0 = 'C' then .ok ((op.length : Int) - 3)
        else if charAt op 0 = 'X' then .ok (((op.length : Int) - 3 + 1) / 2)
        else .err ⟨.INVALID_OPERAND, line, op⟩
  else if mnemonic == "WORD" then
    match op0, op1 with
    | none, _ => .err ⟨.REQUIRED_ONE_OPERAND, line, mnemonic⟩
    | some _, some _ => .err ⟨.REQUIRED_ONE_OPERAND, line, mnemonic⟩
    | some _, none => .ok 3
  else if mnemonic == "RESB" then
    match op0, op1 with
    | none, _ => .err ⟨.REQUIRED_ONE_OPERAND, line, mnemonic⟩
    | some _, some _ => .err ⟨.REQUIRED_ONE_OPERAND, line, mnemonic⟩
    | some op, none => .ok (strtolDec op)
  else if mnemonic == "RESW" then
    match op0, op1 with
    | none, _ => .err ⟨.REQUIRED_ONE_OPERAND, line, mnemonic⟩
    | some _, some _ => .err ⟨.REQUIRED_ONE_OPERAND, line, mnemonic⟩
    | some op, none => .ok (3 * strtolDec op)
  else if mnemonic == "BASE" || mnemonic == "NOBASE" then .ok 0
  else .err ⟨.INVALID_OPCODE, line, mnemonic⟩

/-- A sample opcode dictionary, shaped like the entries the plain-text
opcode.txt of section 6.4 yields (format bits per the spec's opcode table
and debugger.c's format lists): FIX is format 1, COMPR and CLEAR and TIXR
are format 2, the memory-reference mnemonics are format 3/4. -/
def sampleOpTable : OpTable :=
  [⟨0xC4, true, false, false, false, "FIX"⟩,
   ⟨0xA0, false, true, false, false, "COMPR"⟩,
   ⟨0xB4, false, true, false, false, "CLEAR"⟩,
   ⟨0xB8, false, true, false, false, "TIXR"⟩,
   ⟨0x00, false, false, true, true, "LDA"⟩,
   ⟨0x0C, false, false, true, true, "STA"⟩,
   ⟨0x3C, false, false, true, true, "J"⟩,
   ⟨0x4C, false, false, true, true, "RSUB"⟩,
   ⟨0x28, false, false, true, true, "COMP"⟩,
   ⟨0x50, false, false, true, true, "LDCH"⟩,
   ⟨0x54, false, false, true, true, "STCH"⟩]

/-! ## Assembler tokenizer (assembler.c:526-562) -/

/-- Tokenized form of one source line: `label`, `mnemonic`,
`operands[0]`, `operands[1]` of `assembler_tokenize_line`; `none` models a
`NULL` token pointer. -/
structure TokLine where
  label : Option String
  mnemonic : Option String
  op0 : Option String
  op1 : Option String
deriving DecidableEq, Repr

/-- Accumulator loop for `splitTokens`. -/
def splitTokensAux (delims : List Char) : List Char → List Char → List (List Char)
  | [], cur => if cur.isEmpty then [] else [cur.reverse]
  | c :: cs, cur =>
      if delims.contains c then
        if cur.isEmpty then splitTokensAux delims cs []
        else cur.reverse :: splitTokensAux delims cs []
      else splitTokensAux delims cs (c :: cur)

/-- The nonempty tokens produced by successive `strtok` calls with the given
delimiter set. -/
def splitTokens (delims : List Char) (s : List Char) : List (List Char) :=
  splitTokensAux delims s []

/-- `assembler_tokenize_line` (assembler.c:526): chop the final character
(the newline left by `fgets`, assembler.c:531), recognise comment lines
(leading `.`) and empty lines as `none`, take the first token on
space/tab; a token that `assembler_is_mnemonic` accepts is the mnemonic
(no label), otherwise it is the label and the next token the mnemonic;
the remaining text is split on space/tab/comma into at most two operands.
(`strtok` with delimiters " \t," applied after the mnemonic is equivalent
to splitting the remaining space-separated tokens at commas, which is how
it is rendered here.) -/
def assembler_tokenize_line (tbl : OpTable) (buffer : String) : Option TokLine :=
  let chopped := buffer.toList.dropLast
  if chopped.headD (Char.ofNat 0) = '.' then none
  else
    match splitTokens [' ', '\t'] chopped with
    | [] => none
    | t0 :: rest =>
        let first := String.mk t0
        if assembler_is_mnemonic tbl first then
          let ops := (rest.map (splitTokens [','])).flatten.map String.mk
          some ⟨none, some first, ops.head?, (ops.drop 1).head?⟩
        else
          match rest with
          | [] => some ⟨some first, none, none, none⟩
          | m :: rest2 =>
              let ops := (rest2.map (splitTokens [','])).flatten.map String.mk
              some ⟨some first, some (String.mk m), ops.head?, (ops.drop 1).head?⟩

/-! ## Assembler pass 1 (assembler.c:564-773) -/

/-- One record of the intermediate file: source line number, locctr,
instruction length, as written by `fprintf(int_file, "%d\t%X\t", ...)` and
`fprintf(int_file, "%X\n", ...)` (assembler.c:591,599,608,751,767).  The
record of the final `END` line is written without a length field
(assembler.c:767); it is represented with length 0, which pass 2 never
reads before leaving its loop. -/
structure IntRec where
  line : Int
  locctr : Int
  len : Int
deriving DecidableEq, Repr

/-- Failures of pass 1: a recorded `_symbol_error`, the `END mnemonic is
not found` message (assembler.c:759), or the undefined behaviour of
tokenizing a line with a label but no mnemonic (`strcmp("END", NULL)` at
assembler.c:617). -/
inductive Pass1Err where
  | symErr : AsmError → Pass1Err
  | nullMnemonic : Pass1Err
  | endNotFound : Pass1Err
deriving DecidableEq, Repr

/-- Result type for pass 1 and for whole-assembly runs. -/
inductive P1Res (α : Type) where
  | ok : α → P1Res α
  | err : Pass1Err → P1Res α
deriving DecidableEq, Repr

/-- Successful pass-1 output: the working symbol table, the intermediate
records, `program_start` and `program_len` (assembler.c:770). -/
structure Pass1Out where
  symtab : SymTable
  intRecs : List IntRec
  program_start : Int
  program_len : Int
deriving DecidableEq, Repr

/-- The read-and-skip loop of pass 1 (assembler.c:576-579,755-765): read
source lines, adding 5 to the line number per physical line, until the
first one that tokenizes (not empty, not a comment). -/
def pass1NextLine (tbl : OpTable) : List String → Int → Option (TokLine × Int × List String)
  | [], _ => none
  | l :: rest, lineNo =>
      let ln := lineNo + 5
      match assembler_tokenize_line tbl l with
      | some tok => some (tok, ln, rest)
      | none => pass1NextLine tbl rest ln

/-- The main pass-1 loop (assembler.c:617-768): per line, handle the label,
compute the instruction length, record `(line, locctr, len)`, advance
locctr, and fetch the next line; `END` stops the loop (its partial record
is appended with length 0).  The fuel argument only bounds the recursion;
every iteration consumes at least one source line, so any fuel larger than
the line count is never exhausted. -/
def assembler_pass1_loop (tbl : OpTable) (getFormat : String → Int) :
    Nat → SymTable → List IntRec → TokLine → Int → Int → List String →
    P1Res (SymTable × List IntRec × Int)
  | 0, _, _, _, _, _, _ => .err .endNotFound
  | fuel + 1, symt, acc, cur, curLine, locctr, rest =>
      if cur.mnemonic = some "END" then .ok (symt, acc ++ [⟨curLine, locctr, 0⟩], locctr)
      else
        match cur.mnemonic with
        | none => .err .nullMnemonic
        | some mnemonic =>
            match assembler_pass1_handle_label symt cur.label curLine locctr with
            | .err e => .err (.symErr e)
            | .ok symt2 =>
                match assembler_pass1_instruction_len getFormat tbl curLine mnemonic
                    cur.op0 cur.op1 with
                | .err e => .err (.symErr e)
                | .ok len =>
                    match pass1NextLine tbl rest curLine with
                    | none => .err .endNotFound
                    | some (tok2, line2, rest2) =>
                        assembler_pass1_loop tbl getFormat fuel symt2
                          (acc ++ [⟨curLine, locctr, len⟩]) tok2 line2 (locctr + len) rest2

/-- `assembler_pass1` (assembler.c:564): find the first real line; a
`START` line fixes `locctr`/`program_start` from its hexadecimal operand
and the loop starts at the following real line, otherwise locctr starts at
0 and the loop starts at this same line (in that case the C writes the
first line's record twice — a complete record and then a bare length,
assembler.c:608,751 — which no claim exercises; the record list here keeps
one merged record).  If no real line follows `START`, the C re-enters the
loop on the `START` tokens themselves, which is reproduced here by feeding
them back to the loop. -/
def assembler_pass1 (tbl : OpTable) (getFormat : String → Int)
    (srcLines : List String) : P1Res Pass1Out :=
  match pass1NextLine tbl srcLines 0 with
  | none => .err .nullMnemonic
  | some (tok, line1, rest1) =>
      if tok.mnemonic = some "START" then
        match tok.op0, tok.op1 with
        | none, _ => .err (.symErr ⟨.REQUIRED_ONE_OPERAND, line1, "START"⟩)
        | some _, some _ => .err (.symErr ⟨.REQUIRED_ONE_OPERAND, line1, "START"⟩)
        | some op, none =>
            let locctr := strtolHex op
            let rec0 : IntRec := ⟨line1, locctr, 0⟩
            match pass1NextLine tbl rest1 line1 with
            | none =>
                match assembler_pass1_loop tbl getFormat 1 symbol_new_table [rec0]
                    tok line1 locctr [] with
                | .err e => .err e
                | .ok (symt, recs, endLocctr) =>
                    .ok ⟨symt, recs, locctr, endLocctr - locctr⟩
            | some (tok2, line2, rest2) =>
                match assembler_pass1_loop tbl getFormat (srcLines.length + 1)
                    symbol_new_table [rec0] tok2 line2 locctr rest2 with
                | .err e => .err e
                | .ok (symt, recs, endLocctr) =>
                    .ok ⟨symt, recs, locctr, endLocctr - locctr⟩
      else
        match assembler_pass1_loop tbl getFormat (srcLines.length + 1)
            symbol_new_table [⟨line1, 0, 0⟩] tok line1 0 rest1 with
        | .err e => .err e
        | .ok (symt, recs, endLocctr) => .ok ⟨symt, recs, 0, endLocctr⟩

/-! ## Assembler pass 2 (assembler.c:775-1148) -/

/-- The state that survives between iterations of the pass-2 loop: the live
text-record buffer and its starting locctr, the `write_text_record` flag,
the modification-record list, the base register and its enable flag, and
the object records already written to the .obj file (header first). -/
structure Pass2State where
  text_record : String
  text_record_start : Int
  write_text_record : Bool
  modif_records : List String
  base : Int
  is_base_relative_enabled : Bool
  obj_records : List String
deriving DecidableEq, Repr

/-- `TEXT_RECORD_MAX_LEN` (assembler.c:148): 55, counted in characters of
the hexadecimal text-record buffer (not in object bytes). -/
def TEXT_RECORD_MAX_LEN : Nat := 55

/-- `assembler_create_modif_record` (assembler.c:356): append
`M<modif_start:06X>05` to the modification-record list. -/
def assembler_create_modif_record (modifs : List String) (modif_start : Int) : List String :=
  modifs ++ ["M" ++ printfHexU 6 modif_start ++ "05"]

/-- `assembler_write_obj_text` (assembler.c:1268): the text record
`T<start:06X><strlen/2:02X><hex-bytes>`. -/
def assembler_write_obj_text (start : Int) (text : String) : String :=
  "T" ++ printfHexU 6 start ++ printfHexU 2 ((text.length : Int) / 2) ++ text

/-- Outcome of the object-code computation of one pass-2 line: the object
code characters together with the state fields the branches may update
(`write_text_record`, base/enable, modification records). -/
structure ObjCodeOut where
  object_code : String
  write_text_record : Bool
  modif_records : List String
  base : Int
  is_base_relative_enabled : Bool
deriving DecidableEq, Repr

/-- The displacement-or-address calculation and object-code assembly of a
format-3/4 instruction with an operand (assembler.c:1010-1097, the block
commented `Calculate displacement or address`, together with the final
`sprintf`s of assembler.c:1093-1097), for the already-parsed flag bits
`e`, `n`, `i`, `x` and the prefix-stripped operand `o0`.  `locctr` has
already been advanced past this instruction (assembler.c:846), so the
modification-record start is `locctr - instruction_len + 1` and the
PC-relative displacement is `target - locctr`.  `displacement &
DISPLACEMENT_MASK` on a two's complement `int` equals the value modulo
4096, rendered as `emod`. -/
def assembler_pass2_f34_operand (symt : SymTable) (st : Pass2State)
    (line locctr instruction_len : Int) (opcode e n i x : Int) (o0 : String) :
    AsmRes ObjCodeOut :=
  let keep : ObjCodeOut :=
    ⟨"", st.write_text_record, st.modif_records, st.base, st.is_base_relative_enabled⟩
  if n = 0 && i = 1 && !(symbol_is_exist symt o0) then
    let obj := printfHexU 2 (opcode + 2 * n + i) ++
      printfHexU 1 (8 * x + 4 * 0 + 2 * 0 + e) ++
      (if e = 1 then printfHexU 5 (strtolDec o0)
       else printfHexU 3 ((strtolDec o0).emod 4096))
    .ok { keep with object_code := obj }
  else
    let target := symbol_get_locctr symt o0
    let d1 := target - locctr
    if -2048 ≤ d1 && d1 ≤ 2047 then
      let obj := printfHexU 2 (opcode + 2 * n + i) ++
        printfHexU 1 (8 * x + 4 * 0 + 2 * 1 + e) ++
        (if e = 1 then printfHexU 5 0 else printfHexU 3 (d1.emod 4096))
      .ok { keep with object_code := obj }
    else if !st.is_base_relative_enabled then
      .err ⟨.INVALID_OPERAND, line, o0⟩
    else
      let d2 := target - st.base
      if 0 ≤ d2 && d2 ≤ 4095 then
        let obj := printfHexU 2 (opcode + 2 * n + i) ++
          printfHexU 1 (8 * x + 4 * 1 + 2 * 0 + e) ++
          (if e = 1 then printfHexU 5 0 else printfHexU 3 (d2.emod 4096))
        .ok { keep with object_code := obj }
      else if e ≠ 1 then .err ⟨.INVALID_OPERAND, line, o0⟩
      else
        let modifs2 :=
          if !(symbol_is_register o0) then
            assembler_create_modif_record st.modif_records
              (locctr - instruction_len + 1)
          else st.modif_records
        let obj := printfHexU 2 (opcode + 2 * n + i) ++
          printfHexU 1 (8 * x + e) ++ printfHexU 5 target
        .ok { keep with object_code := obj, modif_records := modifs2 }

/-- Observer for the rule theorems: the modification-record list carried
by a successful object-code computation. -/
def objcodeModifs (r : AsmRes ObjCodeOut) : Option (List String) :=
  match r with
  | .ok oc => some oc.modif_records
  | .err _ => none

/-- The object-code generation of the pass-2 loop body
(assembler.c:848-1104), parameterised like pass 1 by the format oracle.
`locctr` has already been advanced past this instruction
(assembler.c:846), which is why the modification-record start is
`locctr - instruction_len + 1` and the PC-relative displacement is
`target - locctr`.  `displacement & DISPLACEMENT_MASK` on a two's
complement `int` equals the value modulo 4096, rendered as `emod`. -/
def assembler_pass2_objcode (tbl : OpTable) (getFormat : String → Int)
    (symt : SymTable) (st : Pass2State) (line locctr instruction_len : Int)
    (mnemonic : String) (op0 op1 : Option String) : AsmRes ObjCodeOut :=
  let keep : ObjCodeOut :=
    ⟨"", st.write_text_record, st.modif_records, st.base, st.is_base_relative_enabled⟩
  if mnemonic == "BYTE" then
    match op0 with
    | none => .err ⟨.REQUIRED_ONE_OPERAND, line, mnemonic⟩
    | some op =>
        if charAt op 0 = 'C' then
          let hexed := ((op.toList.drop 2).dropLast).map (fun c => printfHexU 2 (c.toNat : Int))
          .ok { keep with object_code := String.join hexed }
        else if charAt op 0 = 'X' then
          .ok { keep with object_code := String.mk ((op.toList.drop 2).dropLast) }
        else .err ⟨.INVALID_OPERAND, line, op⟩
  else if mnemonic == "WORD" then
    match op0 with
    | none => .err ⟨.REQUIRED_ONE_OPERAND, line, mnemonic⟩
    | some op => .ok { keep with object_code := printfHexU 6 (strtolDec op) }
  else if mnemonic == "RESB" || mnemonic == "RESW" then
    .ok { keep with write_text_record := true }
  else if mnemonic == "BASE" then
    match op0 with
    | none => .err ⟨.REQUIRED_ONE_OPERAND, line, mnemonic⟩
    | some op =>
        .ok { keep with base := symbol_get_locctr symt op,
                        is_base_relative_enabled := true }
  else if mnemonic == "NOBASE" then
    .ok { keep with is_base_relative_enabled := false }
  else
    let stripped := charAt mnemonic 0 = '+' && opcode_is_opcode tbl (mnemonic.drop 1)
    if !(opcode_is_opcode tbl mnemonic) && !stripped then
      .err ⟨.INVALID_OPCODE, line, mnemonic⟩
    else
      let e : Int := if opcode_is_opcode tbl mnemonic then 0 else 1
      let mn := if opcode_is_opcode tbl mnemonic then mnemonic else mnemonic.drop 1
      let opcode := opcode_get_opcode tbl mn
      let format := getFormat mn
      if floatNearEps 1000 format then
        if e = 1 then .err ⟨.INVALID_OPCODE, line, mnemonic⟩
        else .ok { keep with object_code := printfHexU 2 opcode }
      else if floatNearEps 2000 format then
        if e = 1 then .err ⟨.INVALID_OPCODE, line, mnemonic⟩
        else
          match op0 with
          | none => .err ⟨.REQUIRED_ONE_OPERAND, line, mn⟩
          | some o0 =>
              let r2v : Int := match op1 with
                | some o1 => symbol_get_locctr symt o1
                | none => 0
              let obj := printfHexU 2 opcode ++
                printfHexU 1 (symbol_get_locctr symt o0) ++ printfHexU 1 r2v
              .ok { keep with object_code := obj }
      else if floatNearEps 3500 format then
        if mn == "RSUB" then
          let obj := printfHexU 2 (opcode + 2 * 1 + 1) ++ printfHexU 1 e ++
            (if e = 1 then printfHexU 5 0 else printfHexU 3 0)
          .ok { keep with object_code := obj }
        else
          match op0 with
          | none => .err ⟨.REQUIRED_ONE_OPERAND, line, mn⟩
          | some o0raw =>
              let n : Int := if charAt o0raw 0 = '#' then 0 else 1
              let i : Int := if charAt o0raw 0 = '@' then 0 else 1
              let o0 := if charAt o0raw 0 = '#' || charAt o0raw 0 = '@'
                        then o0raw.drop 1 else o0raw
              let xres : AsmRes Int :=
                match op1 with
                | none => .ok 0
                | some o1 => if o1 == "X" then .ok 1 else .err ⟨.INVALID_OPERAND, line, o0⟩
              match xres with
              | .err er => .err er
              | .ok x =>
                  assembler_pass2_f34_operand symt st line locctr instruction_len
                    opcode e n i x o0
      else .err ⟨.INVALID_OPCODE, line, mn⟩

/-- The buffer-append and flush logic of the pass-2 loop body
(assembler.c:1106-1122): append the object code to the live text-record
buffer, raise the flush flag once the buffer holds `TEXT_RECORD_MAX_LEN`
(55) or more characters — the check runs after the append — and on a
raised flag emit the nonempty buffer as a text record; the next record
starts at the already-advanced locctr. -/
def assembler_pass2_append_flush (st : Pass2State) (locctr : Int)
    (oc : ObjCodeOut) : Pass2State :=
  let text1 := st.text_record ++ oc.object_code
  let wtr := oc.write_text_record || (TEXT_RECORD_MAX_LEN ≤ text1.length)
  if wtr then
    if text1.length ≠ 0 then
      ⟨"", locctr, false, oc.modif_records, oc.base, oc.is_base_relative_enabled,
       st.obj_records ++ [assembler_write_obj_text st.text_record_start text1]⟩
    else
      ⟨text1, st.text_record_start, false, oc.modif_records, oc.base,
       oc.is_base_relative_enabled, st.obj_records⟩
  else
    ⟨text1, st.text_record_start, wtr, oc.modif_records, oc.base,
     oc.is_base_relative_enabled, st.obj_records⟩

/-- One iteration of the pass-2 loop (assembler.c:833-1135): advance
locctr, compute the object code, then append and possibly flush. -/
def assembler_pass2_step (tbl : OpTable) (getFormat : String → Int)
    (symt : SymTable) (st : Pass2State) (tok : TokLine) (rec : IntRec) :
    AsmRes Pass2State :=
  match tok.mnemonic with
  | none => .err ⟨.NONE, rec.line, ""⟩
  | some mnemonic =>
      let locctr := rec.locctr + rec.len
      match assembler_pass2_objcode tbl getFormat symt st rec.line locctr rec.len
          mnemonic tok.op0 tok.op1 with
      | .err e => .err e
      | .ok oc => .ok (assembler_pass2_append_flush st locctr oc)

/-- The lock-step reader `assembler_pass2_get_ready_line`
(assembler.c:1150): every source line that tokenizes is paired with the
next intermediate record. -/
def pass2ReadyLines (tbl : OpTable) : List String → List IntRec → List (TokLine × IntRec)
  | [], _ => []
  | l :: ls, recs =>
      match assembler_tokenize_line tbl l with
      | none => pass2ReadyLines tbl ls recs
      | some tok =>
          match recs with
          | [] => []
          | r :: rs => (tok, r) :: pass2ReadyLines tbl ls rs

/-- The pass-2 loop (assembler.c:833-1136): process ready lines until the
`END` mnemonic. -/
def assembler_pass2_loop (tbl : OpTable) (getFormat : String → Int)
    (symt : SymTable) : Pass2State → List (TokLine × IntRec) → AsmRes Pass2State
  | st, [] => .ok st
  | st, (tok, rec) :: rest =>
      if tok.mnemonic = some "END" then .ok st
      else
        match assembler_pass2_step tbl getFormat symt st tok rec with
        | .err e => .err e
        | .ok st2 => assembler_pass2_loop tbl getFormat symt st2 rest

/-- `assembler_pass2` (assembler.c:775): write the header record from the
first ready line, skip it if it is `START`, run the loop, then flush the
remaining text record (unconditionally, assembler.c:1143), the
modification records and the end record.  The local `program_start` is
initialised to 0 at assembler.c:781 and never reassigned, so the end
record argument of `assembler_write_obj_end` (assembler.c:1145,1241) is
the constant 0 whatever the `START` directive said. -/
def assembler_pass2 (tbl : OpTable) (getFormat : String → Int) (symt : SymTable)
    (program_len : Int) (ready : List (TokLine × IntRec)) : AsmRes (List String) :=
  let program_start : Int := 0
  match ready with
  | [] => .ok []
  | (first, frec) :: rest =>
      let headerRec := "H" ++ printfLeft6 (first.label.getD " ") ++
        printfHexU 6 frec.locctr ++ printfHexU 6 program_len
      let body := if first.mnemonic = some "START" then rest else (first, frec) :: rest
      let initLocctr := match body with
        | [] => frec.locctr
        | (_, r) :: _ => r.locctr
      let st0 : Pass2State := ⟨"", initLocctr, false, [], 0, false, [headerRec]⟩
      match assembler_pass2_loop tbl getFormat symt st0 body with
      | .err e => .err e
      | .ok st =>
          .ok (st.obj_records ++
            [assembler_write_obj_text st.text_record_start st.text_record] ++
            st.modif_records ++
            ["E" ++ printfHexU 6 program_start])

/-- The object-file production of `assembler_execute_assemble`
(assembler.c:412-482): pass 1 then pass 2 over the same source, the
intermediate records standing for the rewound .int file. -/
def assembler_assemble (tbl : OpTable) (getFormat : String → Int)
    (srcLines : List String) : P1Res (List String) :=
  match assembler_pass1 tbl getFormat srcLines with
  | .err e => .err e
  | .ok out =>
      match assembler_pass2 tbl getFormat out.symtab out.program_len
          (pass2ReadyLines tbl srcLines out.intRecs) with
      | .err e => .err (.symErr e)
      | .ok records => .ok records

/-! ## External symbol table (external_symbol.c) -/

/-- One exported symbol of a control section (struct external_symbol,
external_symbol.c:16). -/
structure ExtSymbol where
  symbol : String
  address : Int
deriving DecidableEq, Repr

/-- A control section (struct control_section, external_symbol.c:29). -/
structure ControlSection where
  symbol : String
  address : Int
  length : Int
  symbols : List ExtSymbol
deriving DecidableEq, Repr

/-- The external-symbol table: control sections in insertion order
(external_symbol.c:46; both inserts append at the tail). -/
abbrev ExtTable := List ControlSection

/-- `external_symbol_insert_control_section` (external_symbol.c:55). -/
def external_symbol_insert_control_section (t : ExtTable) (symbol : String)
    (address length : Int) : ExtTable :=
  t ++ [⟨symbol, address, length, []⟩]

/-- `external_symbol_insert_symbol` (external_symbol.c:83): append the
symbol to the named control section's list. -/
def external_symbol_insert_symbol (t : ExtTable) (sect symbol : String)
    (address : Int) : ExtTable :=
  t.map (fun cs =>
    if cs.symbol == sect then { cs with symbols := cs.symbols ++ [⟨symbol, address⟩] }
    else cs)

/-! ## Loader pass 1 (loader.c:174-252)

Object files are modelled as their line lists, each line still carrying the
newline `fgets` leaves; the `buffer[strlen(buffer) - 1] = 0` stripping
(loader.c:200,215) appears as `dropLast`. -/

/-- `loader_tokenize_header_record` (loader.c:376): section name =
characters 1..6, section length = `strtol(&buffer[13], NULL, 16)`. -/
def loader_tokenize_header_record (chars : List Char) : String × Int :=
  (String.mk ((chars.drop 1).take 6), strtolChars 16 isHexDigitC (chars.drop 13))

/-- `loader_tokenize_define_record` (loader.c:364), applied to
`&buffer[12 * i]` for pair `i`: symbol name at offsets 1..6, address at
7..12. -/
def loader_tokenize_define_record (chars : List Char) : String × Int :=
  (String.mk ((chars.drop 1).take 6),
   strtolChars 16 isHexDigitC ((chars.drop 7).take 6))

/-- The `D`-record loop of loader pass 1 (loader.c:218-232):
`(strlen - 1) / 12` symbol pairs, each inserted at
`control_section_address + local address`. -/
def loader_pass1_d_record (sect : String) (base : Int) (t : ExtTable)
    (chars : List Char) : ExtTable :=
  (List.range ((chars.length - 1) / 12)).foldl
    (fun acc idx =>
      let p := loader_tokenize_define_record (chars.drop (12 * idx))
      external_symbol_insert_symbol acc sect p.1 (base + p.2)) t

/-- The search for the `H` record (loader.c:195-203): skip lines until one
starts with `H`; that line is returned newline-stripped. -/
def loader_find_header : List String → Option (List Char × List String)
  | [] => none
  | l :: rest =>
      if charAt l 0 = 'H' then some (l.toList.dropLast, rest)
      else loader_find_header rest

/-- The record walk of loader pass 1 after the header (loader.c:213-241):
`D` records insert symbols, `E` stops, everything else is skipped. -/
def loader_pass1_records (sect : String) (base : Int) :
    ExtTable → List String → ExtTable
  | t, [] => t
  | t, l :: rest =>
      let chars := l.toList.dropLast
      let c0 := chars.headD (Char.ofNat 0)
      if c0 = 'D' then
        loader_pass1_records sect base (loader_pass1_d_record sect base t chars) rest
      else if c0 = 'E' then t
      else loader_pass1_records sect base t rest

/-- One object file in loader pass 1 (loader.c:186-247): find the header,
insert the control section at the running cursor, walk its records, and
advance the cursor by the declared section length.  `none` stands for a
file with no `H` record, where the C would reuse a stale buffer. -/
def loader_pass1_file (t : ExtTable) (cursor : Int) (file : List String) :
    Option (ExtTable × Int) :=
  match loader_find_header file with
  | none => none
  | some (hchars, rest) =>
      let h := loader_tokenize_header_record hchars
      let t1 := external_symbol_insert_control_section t h.1 cursor h.2
      let t2 := loader_pass1_records h.1 cursor t1 rest
      some (t2, cursor + h.2)

/-- The file fold of loader pass 1. -/
def loader_pass1_files : ExtTable → Int → List (List String) → Option (ExtTable × Int)
  | t, cursor, [] => some (t, cursor)
  | t, cursor, f :: fs =>
      match loader_pass1_file t cursor f with
      | none => none
      | some (t2, cursor2) => loader_pass1_files t2 cursor2 fs

/-- `loader_pass1` (loader.c:174): sections are placed left to right from
`progaddr`; after the last file the call at loader.c:249 is
`debugger_prepare_run(program_address, control_section_address)` — the
second and third components of the result are exactly those two
arguments.  Note that `control_section_address` at that point is the end
cursor `progaddr + L1 + ... + Ln`, not a length. -/
def loader_pass1 (progaddr : Int) (files : List (List String)) :
    Option (ExtTable × Int × Int) :=
  match loader_pass1_files [] progaddr files with
  | none => none
  | some (t, cursor) => some (t, progaddr, cursor)

/-! ## File lifecycle of the assemble command (assembler.c:412-482) -/

/-- The set of output files currently on disk, by name. -/
abbrev FileSet := List String

/-- Creation of a file by a successful `fopen(..., "w")`. -/
def fsCreate (fs : FileSet) (f : String) : FileSet :=
  if fs.contains f then fs else fs ++ [f]

/-- `remove(filename)`. -/
def fsRemove (fs : FileSet) (f : String) : FileSet :=
  fs.filter (fun g => g != f)

/-- The file effects of `assembler_execute_assemble` on its output files
(.int/.lst/.obj for an input `a.asm`), translated branch for branch from
assembler.c:412-482; the four booleans select which steps succeed.  The
second component records whether `symbol_save_table` ran (it runs only on
the full success path, assembler.c:479; every failure path returns without
touching the saved table).
  - pass-1 failure: `remove(int_filename)` (assembler.c:420);
  - .lst creation failure: `remove(int_filename)` (assembler.c:437);
  - .obj creation failure: `remove(int_filename)`, `remove(lst_filename)`
    (assembler.c:453-454);
  - pass-2 failure: `remove(obj_filename)`, `remove(lst_filename)` — and
    no removal of the intermediate file (assembler.c:466-473);
  - success: `remove(int_filename)` (assembler.c:474). -/
def assembler_execute_assemble_files (pass1_ok lst_created obj_created pass2_ok : Bool) :
    FileSet × Bool :=
  let fs0 := fsCreate [] "a.int"
  if !pass1_ok then (fsRemove fs0 "a.int", false)
  else if !lst_created then (fsRemove fs0 "a.int", false)
  else
    let fs1 := fsCreate fs0 "a.lst"
    if !obj_created then (fsRemove (fsRemove fs1 "a.int") "a.lst", false)
    else
      let fs2 := fsCreate fs1 "a.obj"
      if !pass2_ok then (fsRemove (fsRemove fs2 "a.obj") "a.lst", false)
      else (fsRemove fs2 "a.int", true)

/-! ## Simulator (debugger.c)

Registers are ten C `unsigned int` cells (debugger.c:20,101); register
arithmetic therefore wraps modulo `2 ^ 32`.  A format-2 register number
above 9 indexes the C array out of bounds (undefined behaviour); here such
reads yield 0 and such writes are dropped.  Memory bytes written by the
embedded code are always below 256, matching `unsigned char`. -/

/-- Register indices (debugger.c:61-76). -/
def REGISTER_A : Nat := 0
def REGISTER_X : Nat := 1
def REGISTER_L : Nat := 2
def REGISTER_B : Nat := 3
def REGISTER_S : Nat := 4
def REGISTER_T : Nat := 5
def REGISTER_PC : Nat := 8
def REGISTER_SW : Nat := 9

/-- The register file `_registers` (debugger.c:101). -/
abbrev Regs := List Nat

def regGet (r : Regs) (idx : Nat) : Nat := r.getD idx 0

def regSet (r : Regs) (idx v : Nat) : Regs := r.set idx v

/-- 32-bit unsigned wrap. -/
def mod32 (n : Nat) : Nat := n % (2 ^ 32)

/-- 32-bit unsigned subtraction. -/
def sub32 (a b : Nat) : Nat := (a + 2 ^ 32 - b % (2 ^ 32)) % (2 ^ 32)

/-- Reinterpretation of a 32-bit unsigned value as a two's complement
`int`, as happens in `int diff = r1 - r2` (debugger.c:581 etc.). -/
def toInt32 (n : Nat) : Int :=
  if n % (2 ^ 32) < 2 ^ 31 then (n % (2 ^ 32) : Int) else (n % (2 ^ 32) : Int) - 2 ^ 32

/-- `int diff = a - b` on two `unsigned int` registers. -/
def cmpDiff (a b : Nat) : Int := toInt32 (sub32 a b)

/-- The three-way condition-code assignment used by COMPR, TIXR, COMP and
TIX (debugger.c:581-593,638-650,712-724,945-957): SW receives the
character code of `>`, `<` or `=`. -/
def condCode (diff : Int) : Nat :=
  if diff > 0 then 62 else if diff < 0 then 60 else 61

/-- A read through `memspace_get_memory` into a zero-initialised buffer
(debugger.c:309-310,395,667-671,684): when the bounds check fails the
buffer keeps its zeros. -/
def debugger_fetch (m : Mem) (address : Int) (n : Nat) : List Nat :=
  match memspace_get_memory m address (n : Int) with
  | some bs => bs
  | none => List.replicate n 0

/-- Three bytes at an address assembled big-endian
(debugger.c:670,673,686). -/
def debugger_load3 (m : Mem) (address : Int) : Nat :=
  match debugger_fetch m address 3 with
  | [b0, b1, b2] => b0 * 65536 + b1 * 256 + b2
  | _ => 0

/-- A write through the spec-modelled `memspace_set_memory`
(debugger.c:858 etc.); the debugger ignores its result, so a rejected
write leaves memory unchanged. -/
def debugger_store (m : Mem) (address : Int) (bytes : List Nat) : Mem :=
  match memspace_set_memory m address bytes with
  | some m2 => m2
  | none => m

/-- The three register bytes stored by the ST* instructions
(debugger.c:855-857 etc.). -/
def bytes3 (v : Nat) : List Nat :=
  [(v >>> 16) &&& 0xFF, (v >>> 8) &&& 0xFF, v &&& 0xFF]

/-- The format-1 opcode list of `debugger_get_format` (debugger.c:447). -/
def FORMAT1_OPCODES : List Nat := [0xC4, 0xC0, 0xF4, 0xC8, 0xF0, 0xF8]

/-- The format-2 opcode list of `debugger_get_format` (debugger.c:457). -/
def FORMAT2_OPCODES : List Nat :=
  [0x90, 0xB4, 0xA0, 0x9C, 0x98, 0xAC, 0xA4, 0xA8, 0x94, 0xB0, 0xB8]

/-- The format-3/4 opcode list of `debugger_get_format`
(debugger.c:472). -/
def FORMAT34_OPCODES : List Nat :=
  [0x18, 0x58, 0x40, 0x28, 0x88, 0x24, 0x64, 0x3C, 0x30, 0x34, 0x38, 0x48,
   0x00, 0x68, 0x50, 0x70, 0x08, 0x6C, 0x74, 0x04, 0xD0, 0x20, 0x60, 0x44,
   0xD8, 0x4C, 0xEC, 0x0C, 0x78, 0x54, 0x80, 0xD4, 0x14, 0x7C, 0xE8, 0x84,
   0x10, 0x1C, 0x5C, 0xE0, 0x2C, 0xDC]

/-- `debugger_get_format` (debugger.c:445). -/
def debugger_get_format (opcode : Nat) : Nat :=
  if FORMAT1_OPCODES.contains opcode then 1
  else if FORMAT2_OPCODES.contains opcode then 2
  else if FORMAT34_OPCODES.contains opcode then 3
  else 0

/-- `debugger_instruction_format1` (debugger.c:525): every format-1 opcode
is a stub, so the registers are unchanged. -/
def debugger_instruction_format1 (r : Regs) (opcode : Nat) : Regs := r

/-- `debugger_instruction_format2` (debugger.c:564), in source order.
ADDR (0x90) writes into r1 — `_registers[r1] = _registers[r1] +
_registers[r2]` (debugger.c:571) — despite its comment saying r2. -/
def debugger_instruction_format2 (r : Regs) (opcode r1 r2 : Nat) : Regs :=
  if opcode = 0x90 then regSet r r1 (mod32 (regGet r r1 + regGet r r2))
  else if opcode = 0xB4 then regSet r r1 0
  else if opcode = 0xA0 then regSet r REGISTER_SW (condCode (cmpDiff (regGet r r1) (regGet r r2)))
  else if opcode = 0x9C then regSet r r2 (regGet r r2 / regGet r r1)
  else if opcode = 0x98 then regSet r r2 (mod32 (regGet r r2 * regGet r r1))
  else if opcode = 0xAC then regSet r r2 (regGet r r1)
  else if opcode = 0xA4 then r
  else if opcode = 0xA8 then r
  else if opcode = 0x94 then regSet r r2 (sub32 (regGet r r2) (regGet r r1))
  else if opcode = 0xB0 then r
  else if opcode = 0xB8 then
    let r2' := regSet r REGISTER_X (mod32 (regGet r REGISTER_X + 1))
    regSet r2' REGISTER_SW (condCode (cmpDiff (regGet r2' REGISTER_X) (regGet r2' r1)))
  else r

/-- `debugger_instruction_format3_4` (debugger.c:658), in source order.
The addressing-mode switch (debugger.c:663-692) computes `value` and, in
the indirect case, re-targets `target_address`; the opcode dispatch then
acts on registers and memory.  Floating-point, I/O and system opcodes are
stubs as in the source; `RD` (0xD8) loads 0 and `TD` (0xE0) sets SW to
`<`.  A division by zero is undefined behaviour in C; here it yields 0. -/
def debugger_instruction_format3_4 (m : Mem) (r : Regs) (opcode n i : Nat)
    (target0 : Int) : Regs × Mem :=
  let tv : Int × Nat :=
    if n = 1 && i = 0 then
      let t2 := (debugger_load3 m target0 : Int)
      (t2, debugger_load3 m t2)
    else if n = 0 && i = 1 then (target0, uintOf target0)
    else if n = 1 && i = 1 then (target0, debugger_load3 m target0)
    else (target0, uintOf target0)
  let target := tv.1
  let value := tv.2
  if opcode = 0x18 then (regSet r REGISTER_A (mod32 (regGet r REGISTER_A + (value &&& 0xFFFFFF))), m)
  else if opcode = 0x58 then (r, m)
  else if opcode = 0x40 then (regSet r REGISTER_A (regGet r REGISTER_A &&& (value &&& 0xFFFFFF)), m)
  else if opcode = 0x28 then
    (regSet r REGISTER_SW (condCode (cmpDiff (regGet r REGISTER_A) (value &&& 0xFFFFFF))), m)
  else if opcode = 0x88 then (r, m)
  else if opcode = 0x24 then (regSet r REGISTER_A (regGet r REGISTER_A / (value &&& 0xFFFFFF)), m)
  else if opcode = 0x64 then (r, m)
  else if opcode = 0x3C then (regSet r REGISTER_PC (uintOf target), m)
  else if opcode = 0x30 then
    (if regGet r REGISTER_SW = 61 then regSet r REGISTER_PC (uintOf target) else r, m)
  else if opcode = 0x34 then
    (if regGet r REGISTER_SW = 62 then regSet r REGISTER_PC (uintOf target) else r, m)
  else if opcode = 0x38 then
    (if regGet r REGISTER_SW = 60 then regSet r REGISTER_PC (uintOf target) else r, m)
  else if opcode = 0x48 then
    (regSet (regSet r REGISTER_L (regGet r REGISTER_PC)) REGISTER_PC (uintOf target), m)
  else if opcode = 0x00 then (regSet r REGISTER_A (value &&& 0xFFFFFF), m)
  else if opcode = 0x68 then (regSet r REGISTER_B (value &&& 0xFFFFFF), m)
  else if opcode = 0x50 then (regSet r REGISTER_A ((value >>> 16) &&& 0xFF), m)
  else if opcode = 0x70 then (r, m)
  else if opcode = 0x08 then (regSet r REGISTER_L (value &&& 0xFFFFFF), m)
  else if opcode = 0x6C then (regSet r REGISTER_S (value &&& 0xFFFFFF), m)
  else if opcode = 0x74 then (regSet r REGISTER_T (value &&& 0xFFFFFF), m)
  else if opcode = 0x04 then (regSet r REGISTER_X (value &&& 0xFFFFFF), m)
  else if opcode = 0xD0 then (r, m)
  else if opcode = 0x20 then (regSet r REGISTER_A (mod32 (regGet r REGISTER_A * (value &&& 0xFFFFFF))), m)
  else if opcode = 0x60 then (r, m)
  else if opcode = 0x44 then (regSet r REGISTER_A (regGet r REGISTER_A ||| (value &&& 0xFFFFFF)), m)
  else if opcode = 0xD8 then (regSet r REGISTER_A 0, m)
  else if opcode = 0x4C then (regSet r REGISTER_PC (regGet r REGISTER_L), m)
  else if opcode = 0xEC then (r, m)
  else if opcode = 0x0C then (r, debugger_store m target (bytes3 (regGet r REGISTER_A)))
  else if opcode = 0x78 then (r, debugger_store m target (bytes3 (regGet r REGISTER_B)))
  else if opcode = 0x54 then (r, debugger_store m target [regGet r REGISTER_A &&& 0xFF])
  else if opcode = 0x80 then (r, m)
  else if opcode = 0xD4 then (r, m)
  else if opcode = 0x14 then (r, debugger_store m target (bytes3 (regGet r REGISTER_L)))
  else if opcode = 0x7C then (r, debugger_store m target (bytes3 (regGet r REGISTER_S)))
  else if opcode = 0xE8 then (r, debugger_store m target (bytes3 (regGet r REGISTER_SW)))
  else if opcode = 0x84 then (r, debugger_store m target (bytes3 (regGet r REGISTER_T)))
  else if opcode = 0x10 then (r, debugger_store m target (bytes3 (regGet r REGISTER_X)))
  else if opcode = 0x1C then (regSet r REGISTER_A (sub32 (regGet r REGISTER_A) (value &&& 0xFFFFFF)), m)
  else if opcode = 0x5C then (r, m)
  else if opcode = 0xE0 then (regSet r REGISTER_SW 60, m)
  else if opcode = 0x2C then
    let r2 := regSet r REGISTER_X (mod32 (regGet r REGISTER_X + 1))
    (regSet r2 REGISTER_SW (condCode (cmpDiff (regGet r2 REGISTER_X) value)), m)
  else if opcode = 0xDC then (r, m)
  else (r, m)

/-- The state of `debugger_execute_run`: registers, `_program_address` and
`_program_length` (debugger.c:91-96,101). -/
structure DbgState where
  registers : Regs
  program_address : Int
  program_length : Int
deriving DecidableEq, Repr

/-- The fetch-decode-execute portion of one `debugger_execute_run` loop
iteration (debugger.c:309-419), up to but not including the
post-execution check.  Returns `none` on the two abort paths that print a
diagnostic and leave the command (invalid addressing, debugger.c:375-379;
unknown format, debugger.c:414-419). -/
def debugger_execute_instruction (st : DbgState) (m : Mem) : Option (DbgState × Mem) :=
  let r := st.registers
  let pc := regGet r REGISTER_PC
  let ins := debugger_fetch m (pc : Int) 3
  let b0 := ins.getD 0 0
  let b1 := ins.getD 1 0
  let b2 := ins.getD 2 0
  let opcode := b0 &&& 0xFC
  let format := debugger_get_format opcode
  if format = 1 then
    let r1 := regSet r REGISTER_PC (mod32 (pc + 1))
    some ({ st with registers := debugger_instruction_format1 r1 opcode }, m)
  else if format = 2 then
    let r1 := regSet r REGISTER_PC (mod32 (pc + 2))
    let rn1 := (b1 >>> 4) &&& 0xF
    let rn2 := b1 &&& 0xF
    some ({ st with registers := debugger_instruction_format2 r1 opcode rn1 rn2 }, m)
  else if format = 3 then
    let n : Nat := if b0 &&& 0x02 ≠ 0 then 1 else 0
    let i : Nat := if b0 &&& 0x01 ≠ 0 then 1 else 0
    let x : Nat := if b1 &&& 0x80 ≠ 0 then 1 else 0
    let b : Nat := if b1 &&& 0x40 ≠ 0 then 1 else 0
    let p : Nat := if b1 &&& 0x20 ≠ 0 then 1 else 0
    let e : Nat := if b1 &&& 0x10 ≠ 0 then 1 else 0
    if e = 0 then
      let r1 := regSet r REGISTER_PC (mod32 (pc + 3))
      let disp0 : Int := (((b1 &&& 0x0F) <<< 8) + b2 : Nat)
      if n = 0 && i = 0 then
        let target : Int := (b <<< 14 : Nat) + (p <<< 13 : Nat) + (e <<< 12 : Nat) + disp0
        let target2 := if x = 1 then target + (regGet r1 REGISTER_X : Int) else target
        let rm := debugger_instruction_format3_4 m r1 opcode n i target2
        some ({ st with registers := rm.1 }, rm.2)
      else if b = 1 && p = 0 then
        let target : Int := (regGet r1 REGISTER_B : Int) + disp0
        let target2 := if x = 1 then target + (regGet r1 REGISTER_X : Int) else target
        let rm := debugger_instruction_format3_4 m r1 opcode n i target2
        some ({ st with registers := rm.1 }, rm.2)
      else if b = 0 && p = 1 then
        let disp : Int := if 0x7FF < disp0 then -((-disp0).emod 0x1000) else disp0
        let target : Int := (regGet r1 REGISTER_PC : Int) + disp
        let target2 := if x = 1 then target + (regGet r1 REGISTER_X : Int) else target
        let rm := debugger_instruction_format3_4 m r1 opcode n i target2
        some ({ st with registers := rm.1 }, rm.2)
      else if b = 0 && p = 0 then
        let target2 := if x = 1 then disp0 + (regGet r1 REGISTER_X : Int) else disp0
        let rm := debugger_instruction_format3_4 m r1 opcode n i target2
        some ({ st with registers := rm.1 }, rm.2)
      else none
    else
      let b3 := (debugger_fetch m ((pc : Int) + 3) 1).getD 0 0
      let r1 := regSet r REGISTER_PC (mod32 (pc + 4))
      let address : Int := (((b1 &&& 0x0F) <<< 16) + (b2 <<< 8) + b3 : Nat)
      let target2 := if x = 1 then address + (regGet r1 REGISTER_X : Int) else address
      let rm := debugger_instruction_format3_4 m r1 opcode n i target2
      some ({ st with registers := rm.1 }, rm.2)
  else none

/-- `debugger_initialize` (debugger.c:208-214): zero the registers, zero
`_program_length`, clear the breakpoints (via `debugger_terminate`,
debugger.c:224-227); `_program_address` is left as it is. -/
def debugger_init_state (st : DbgState) : DbgState :=
  ⟨List.replicate 10 0, st.program_address, 0⟩

/-- `debugger_prepare_run` (debugger.c:216-222): L and PC are loaded and
the program address/length stored. -/
def debugger_prepare_run (st : DbgState) (program_address program_length : Int) : DbgState :=
  ⟨regSet (regSet st.registers REGISTER_L (uintOf program_length))
     REGISTER_PC (uintOf program_address),
   program_address, program_length⟩

/-- Outcome of one `debugger_execute_run` loop iteration; each constructor
carries the register/program state, the memory and the breakpoint list
that survive it. -/
inductive RunStep where
  | finished : DbgState → Mem → List Int → RunStep
  | breakpoint : DbgState → Mem → List Int → RunStep
  | running : DbgState → Mem → List Int → RunStep
  | aborted : RunStep
deriving DecidableEq, Repr

/-- The post-execution dispatch of the run loop (debugger.c:421-439): when
PC has reached `_program_address + _program_length` the registers are
shown, `Program finished` is printed and `debugger_initialize` clears the
state including the breakpoints; otherwise a breakpoint at PC shows the
registers, prints `Breakpoint at PC` and stops while keeping all state;
otherwise execution continues. -/
def debugger_run_check (st : DbgState) (m : Mem) (bps : List Int) : RunStep :=
  if st.program_address + st.program_length ≤ (regGet st.registers REGISTER_PC : Int) then
    .finished (debugger_init_state st) m []
  else if bps.contains ((regGet st.registers REGISTER_PC : Int)) then
    .breakpoint st m bps
  else .running st m bps

/-- One full iteration of the `debugger_execute_run` loop
(debugger.c:307-440). -/
def debugger_run_step (st : DbgState) (m : Mem) (bps : List Int) : RunStep :=
  match debugger_execute_instruction st m with
  | none => .aborted
  | some (st2, m2) => debugger_run_check st2 m2 bps

/-- The fuelled run loop (debugger.c:306-440): iterate until a breaking
outcome; `none` when the fuel runs out. -/
def debugger_run_loop : Nat → DbgState → Mem → List Int → Option RunStep
  | 0, _, _, _ => none
  | fuel + 1, st, m, bps =>
      match debugger_run_step st m bps with
      | .running st2 m2 bps2 => debugger_run_loop fuel st2 m2 bps2
      | r => some r

/-! ## Example programs -/

/-- A minimal program with a `START 1000` directive, used to evaluate the
end record (claim C4).  Its body is a single `WORD`, so both format
oracles assemble it identically. -/
def progStart1000 : List String :=
  ["FIRST   START   1000\n",
   "        WORD    5\n",
   "        END     FIRST\n"]

/-- A program whose single `BYTE C` constant holds 31 characters, i.e. 62
hexadecimal characters of object code in one line (claim C6). -/
def progByte31 : List String :=
  ["FIRST   START   0\n",
   "STR     BYTE    C'AAAAAAAAAAAAAAAAAAAAAAAAAAAAAAA'\n",
   "        END     FIRST\n"]

/-- Thirty-one contiguous bytes of object code built from ten 3-byte
`WORD` constants followed by a 1-byte `BYTE X` constant (spec scenario S4,
claim C6). -/
def progWords31 : List String :=
  ["FIRST   START   0\n",
   "        WORD    1\n", "        WORD    1\n", "        WORD    1\n",
   "        WORD    1\n", "        WORD    1\n", "        WORD    1\n",
   "        WORD    1\n", "        WORD    1\n", "        WORD    1\n",
   "        WORD    1\n",
   "        BYTE    X'FF'\n",
   "        END     FIRST\n"]

/-- A format-4 instruction whose symbolic operand `FIVE` lies within the
PC-relative displacement range of the following instruction (claim C5). -/
def progFormat4Near : List String :=
  ["FIRST   START   0\n",
   "+LDA    FIVE\n",
   "FIVE    WORD    5\n",
   "        END     FIRST\n"]

/-- A format-4 instruction whose symbolic operand `THERE` (locctr 3000)
fails both the PC-relative test (3000 - 4 = 2996 > 2047) and the
base-relative test against `FAR` (3000 - 8192 < 0), so pass 2 takes the
direct-addressing fallback and appends a modification record (claim C5). -/
def progFormat4Far : List String :=
  ["FIRST   START   0\n",
   "        BASE    FAR\n",
   "+LDA    THERE\n",
   "        RESB    2996\n",
   "THERE   WORD    1\n",
   "        RESB    5189\n",
   "FAR     BYTE    X'FF'\n",
   "        END     FIRST\n"]

/-! ## Theorems -/

/-- Claim C1: the claim states that a label successfully inserted into the
working symbol table stays visible to every later `symbol_is_exist` query.
The code violates this: inserting a label into the middle of a bucket chain
truncates the chain (symbol.c:193 stores `walk` into the local `new_symbol`
instead of into `new_symbol->next`), so the previously inserted label
`AC` vanishes when `AB` is inserted after `AA` and `AC`.  This theorem
evaluates the embedded code at that failing input: all three insertions
report success, `AC` is visible before the third insertion, and invisible
after it. -/
theorem symbol_insert_drops_middle_tail :
    (let t0 := symbol_new_table
     let r1 := symbol_insert_symbol t0 "AA" 1
     let r2 := symbol_insert_symbol r1.2 "AC" 2
     let r3 := symbol_insert_symbol r2.2 "AB" 3
     r1.1 = true ∧ r2.1 = true ∧ r3.1 = true ∧
       symbol_is_exist r2.2 "AC" = true ∧
       symbol_is_exist r3.2 "AC" = false) := by
  decide

/-- Claim C7: the claim states `memspace_get_memory` fails exactly when
`address` or `address + n - 1` leaves `[0, 0xFFFFF]`, so reading one byte at
`0xFFFFF` succeeds.  The code's second check (memspace.c:173) is
`ADDRESS_MAX < address + byte_count`, an off-by-one that also rejects every
read whose last byte is exactly `0xFFFFF`: the one-byte read at `0xFFFFF`
fails, the one-byte read at `0xFFFFE` succeeds, and the simulator's 3-byte
fetch at `0xFFFFD` (whose last byte is `0xFFFFF`, in range) fails too. -/
theorem memspace_get_memory_rejects_last_byte :
    memspace_get_memory [] 0xFFFFF 1 = none ∧
    memspace_get_memory [] 0xFFFFE 1 = some [0] ∧
    memspace_get_memory [] 0xFFFFD 3 = none ∧
    memspace_get_memory [] 0xFFFFC 3 = some [0, 0, 0] := by
  decide

/-- Claim C10: a source line whose label is one of the register names is
rejected by pass 1 with a `DUPLICATE_SYMBOL` error at that line, whatever
the current working table holds, because `symbol_is_exist` consults the
constant register table before the user symbol table (symbol.c:208-214,
assembler.c:621-624). -/
theorem pass1_register_label_duplicate (t : SymTable) (lbl : String)
    (line locctr : Int) (h : symbol_is_register lbl = true) :
    assembler_pass1_handle_label t (some lbl) line locctr =
      .err ⟨.DUPLICATE_SYMBOL, line, lbl⟩ := by
  unfold symbol_is_register at h
  simp [assembler_pass1_handle_label, symbol_is_exist, h]

/-- Claim C2: the claim gives the pass-1 instruction lengths 1/2/3/4 by
opcode format.  These lengths hold under the contract of opcode.h:18-23
(format 3/4 reported as 3.5), which is the prototype assembler.c is
compiled against — conjuncts 3 to 9.  But the definition of
`opcode_get_format` in opcode.c:156-185 (opcode.c does not include
opcode.h) returns the `int` 3 for a format-3/4 mnemonic, and
`fabsf(3.5f - 3.0f) = 0.5 > EPSILON`, so under the value opcode.c actually
computes, pass 1 rejects every format-3/4 mnemonic as `InvalidOpcode`
instead of sizing it at 3 bytes — conjuncts 1 and 2 evaluate the embedded
code at the failing input `LDA`.  (Calling an `int` definition through a
`float` prototype is undefined behaviour in C; both sides of the clash are
evaluated here.) -/
theorem pass1_instruction_len_format_clash :
    assembler_pass1_instruction_len (opcode_get_format sampleOpTable) sampleOpTable
        10 "LDA" none none = .err ⟨.INVALID_OPCODE, 10, "LDA"⟩ ∧
    opcode_get_format sampleOpTable "LDA" = 3000 ∧
    opcode_get_format_as_declared sampleOpTable "LDA" = 3500 ∧
    assembler_pass1_instruction_len (opcode_get_format_as_declared sampleOpTable) sampleOpTable
        10 "FIX" none none = .ok 1 ∧
    assembler_pass1_instruction_len (opcode_get_format_as_declared sampleOpTable) sampleOpTable
        10 "COMPR" none none = .ok 2 ∧
    assembler_pass1_instruction_len (opcode_get_format_as_declared sampleOpTable) sampleOpTable
        10 "LDA" none none = .ok 3 ∧
    assembler_pass1_instruction_len (opcode_get_format_as_declared sampleOpTable) sampleOpTable
        10 "+LDA" none none = .ok 4 ∧
    assembler_pass1_instruction_len (opcode_get_format_as_declared sampleOpTable) sampleOpTable
        10 "+COMPR" none none = .err ⟨.INVALID_OPCODE, 10, "+COMPR"⟩ ∧
    assembler_pass1_instruction_len (opcode_get_format_as_declared sampleOpTable) sampleOpTable
        10 "FOO" none none = .err ⟨.INVALID_OPCODE, 10, "FOO"⟩ := by
  decide

/-- Claim C4: the claim states the end record is `E<program_start>`, e.g.
`E001000` for a program beginning `FIRST START 1000`.  In pass 2 the local
`program_start` is initialised to 0 (assembler.c:781) and never assigned
again, so `assembler_write_obj_end` (assembler.c:1145,1241) always prints
`E000000`: assembling `progStart1000` yields a header that carries the
true start 001000 but an end record of `E000000`, not the claimed
`E001000`. -/
theorem pass2_end_record_always_zero :
    assembler_assemble sampleOpTable (opcode_get_format sampleOpTable) progStart1000 =
      .ok ["HFIRST 001000000003", "T00100003000005", "E000000"] := by
  decide

/-- Claim C5, counterexample: `+LDA FIVE` is a format-4 instruction whose
operand `FIVE` is a symbolic label resolved through the symbol table, yet
the assembled object file contains no modification record — because pass 2
tries PC-relative addressing first even when `e = 1` (assembler.c:1039)
and only appends a modification record in the direct-addressing fallback
(assembler.c:1069-1090).  (`FIVE` sits 0 bytes from the advanced locctr,
so PC-relative succeeds and the 20-bit address field is even emitted as
00000.) -/
theorem format4_near_operand_no_modif_record :
    assembler_assemble sampleOpTable (opcode_get_format_as_declared sampleOpTable)
        progFormat4Near =
      .ok ["HFIRST 000000000007", "T0000000703300000000005", "E000000"] := by
  decide

/-- Claim C5, amended: for every format-4 instruction (`e = 1`) whose
operand is a symbolic label resolved through the symbol table, pass 2
appends the modification record `M<instr_locctr + 1:6X>05` exactly when
the operand fails both the PC-relative displacement window
(−2048..2047 from the already-advanced locctr) and the base-relative
window (0..4095, reachable only when BASE is active) and is not a
register name.  The five universal conjuncts cover every case of the
displacement calculation (assembler.c:1010-1097, embedded as
`assembler_pass2_f34_operand`): a displacement inside the PC window, or
inside the base window with BASE active, leaves the modification list
unchanged; both windows missed with BASE inactive is an `InvalidOperand`
error even for format 4; both windows missed with BASE active appends
the record for a non-register operand and skips it for a register name.
The final conjunct runs `progFormat4Far` end to end: its `+LDA THERE`
(locctr 0, `THERE` = 3000, outside both windows) produces `M00000105`,
emitted after the last text record and before the end record. -/
theorem format4_modif_record_rule :
    (∀ (symt : SymTable) (st : Pass2State) (line locctr ilen opcode n i x : Int)
        (o0 : String) (target : Int),
      symbol_is_exist symt o0 = true →
      target = symbol_get_locctr symt o0 →
      ((-2048 ≤ target - locctr ∧ target - locctr ≤ 2047) →
        objcodeModifs (assembler_pass2_f34_operand symt st line locctr ilen opcode 1 n i x o0) =
          some st.modif_records) ∧
      (¬(-2048 ≤ target - locctr ∧ target - locctr ≤ 2047) →
        st.is_base_relative_enabled = false →
        assembler_pass2_f34_operand symt st line locctr ilen opcode 1 n i x o0 =
          .err ⟨.INVALID_OPERAND, line, o0⟩) ∧
      (¬(-2048 ≤ target - locctr ∧ target - locctr ≤ 2047) →
        st.is_base_relative_enabled = true →
        (0 ≤ target - st.base ∧ target - st.base ≤ 4095) →
        objcodeModifs (assembler_pass2_f34_operand symt st line locctr ilen opcode 1 n i x o0) =
          some st.modif_records) ∧
      (¬(-2048 ≤ target - locctr ∧ target - locctr ≤ 2047) →
        st.is_base_relative_enabled = true →
        ¬(0 ≤ target - st.base ∧ target - st.base ≤ 4095) →
        symbol_is_register o0 = false →
        objcodeModifs (assembler_pass2_f34_operand symt st line locctr ilen opcode 1 n i x o0) =
          some (assembler_create_modif_record st.modif_records (locctr - ilen + 1))) ∧
      (¬(-2048 ≤ target - locctr ∧ target - locctr ≤ 2047) →
        st.is_base_relative_enabled = true →
        ¬(0 ≤ target - st.base ∧ target - st.base ≤ 4095) →
        symbol_is_register o0 = true →
        objcodeModifs (assembler_pass2_f34_operand symt st line locctr ilen opcode 1 n i x o0) =
          some st.modif_records)) ∧
    assembler_assemble sampleOpTable (opcode_get_format_as_declared sampleOpTable)
        progFormat4Far =
      .ok ["HFIRST 000000002001", "T0000000403100BB8", "T000BB803000001",
           "T00200001FF", "M00000105", "E000000"] := by
  constructor
  · intro symt st line locctr ilen opcode n i x o0 target hsym htgt
    unfold assembler_pass2_f34_operand
    rw [hsym, ← htgt]
    simp only [Bool.not_true, Bool.and_false, Bool.false_eq_true, if_false]
    refine ⟨fun hpc => ?_, fun hnpc hdis => ?_, fun hnpc hen hbw => ?_,
            fun hnpc hen hnbw hreg => ?_, fun hnpc hen hnbw hreg => ?_⟩
    · simp [hpc.1, hpc.2, objcodeModifs]
    · have hcond : (decide (-2048 ≤ target - locctr) && decide (target - locctr ≤ 2047)) = false := by
        rcases not_and_or.mp hnpc with h | h <;> simp [h]
      rw [hcond]
      simp [hdis]
    · have hcond : (decide (-2048 ≤ target - locctr) && decide (target - locctr ≤ 2047)) = false := by
        rcases not_and_or.mp hnpc with h | h <;> simp [h]
      rw [hcond]
      simp [hen, hbw.1, hbw.2, objcodeModifs]
    · have hcond : (decide (-2048 ≤ target - locctr) && decide (target - locctr ≤ 2047)) = false := by
        rcases not_and_or.mp hnpc with h | h <;> simp [h]
      rw [hcond]
      have hnbw2 : ¬(st.base ≤ target ∧ target ≤ 4095 + st.base) := by omega
      simp [hen, hreg, objcodeModifs, hnbw2]
    · have hcond : (decide (-2048 ≤ target - locctr) && decide (target - locctr ≤ 2047)) = false := by
        rcases not_and_or.mp hnpc with h | h <;> simp [h]
      rw [hcond]
      have hnbw2 : ¬(st.base ≤ target ∧ target ≤ 4095 + st.base) := by omega
      simp [hen, hreg, objcodeModifs, hnbw2]
  · decide

/-- Witness for `format4_modif_record_rule`: the `+LDA THERE` instance of
`progFormat4Far` — symbol table holding THERE = 3000 and FAR = 8192, base
register 8192 with BASE active, instruction locctr 0 (advanced to 4),
opcode 0x00, simple addressing, no index — where both displacement
windows fail and `M00000105` is appended. -/
theorem format4_modif_record_rule_witness :
    objcodeModifs (assembler_pass2_f34_operand
        (symbol_insert_symbol (symbol_insert_symbol symbol_new_table "THERE" 3000).2 "FAR" 8192).2
        ⟨"", 0, false, [], 8192, true, []⟩ 15 4 4 0 1 1 1 0 "THERE") =
      some ["M00000105"] :=
  (((format4_modif_record_rule.1
      (symbol_insert_symbol (symbol_insert_symbol symbol_new_table "THERE" 3000).2 "FAR" 8192).2
      ⟨"", 0, false, [], 8192, true, []⟩ 15 4 4 0 1 1 0 "THERE" 3000
      (by decide) (by decide)).2.2.2.1 (by decide) (by decide) (by decide)
      (by decide)).trans (by decide))

/-- Claim C6, counterexample: the claim bounds the live text-record buffer
by 30 object bytes.  `TEXT_RECORD_MAX_LEN` is 55 buffer characters
(assembler.c:148) and the threshold test runs after the append
(assembler.c:1107), so a single 31-character `BYTE C` constant (62
hexadecimal characters) flushes as one text record of 0x1F = 31 object
bytes, exceeding the claimed bound. -/
theorem byte31_single_text_record_exceeds_30 :
    assembler_assemble sampleOpTable (opcode_get_format sampleOpTable) progByte31 =
      .ok ["HFIRST 00000000001F",
           "T0000001F41414141414141414141414141414141414141414141414141414141414141",
           "T00001F00", "E000000"] := by
  decide

/-- Claim C6, amended: after every pass-2 line the live buffer holds fewer
than `TEXT_RECORD_MAX_LEN` = 55 characters (at most 27 object bytes),
because reaching 55 after the append — or a `RESB`/`RESW` — flushes it; a
single flushed record may still exceed 30 bytes when one object code is
long (see the counterexample).  For streams of 3-byte object codes the
claimed behaviour emerges: thirty-one contiguous bytes flush as one
30-byte record plus one 1-byte record whose start is the first record's
start + 0x1E (spec scenario S4). -/
theorem text_record_flush_rule :
    (∀ (st : Pass2State) (locctr : Int) (oc : ObjCodeOut),
      (assembler_pass2_append_flush st locctr oc).text_record.length < TEXT_RECORD_MAX_LEN) ∧
    assembler_assemble sampleOpTable (opcode_get_format sampleOpTable) progWords31 =
      .ok ["HFIRST 00000000001F",
           "T0000001E000001000001000001000001000001000001000001000001000001000001",
           "T00001E01FF", "E000000"] := by
  constructor
  · intro st locctr oc
    unfold assembler_pass2_append_flush TEXT_RECORD_MAX_LEN
    simp only []
    split_ifs with h1 h2
    · simp
    · simp only [ne_eq, Decidable.not_not] at h2
      simp [h2]
    · simp only [Bool.or_eq_true, decide_eq_true_eq, not_or, not_le] at h1
      simpa using h1.2
  · decide

/-- Claim C3: the claim states loader pass 1 ends with
`debugger_prepare_run(P, cursor - P)`, i.e. a program length of
`L1 + ... + Ln`.  The code (loader.c:249) passes
`control_section_address` itself — the end cursor `P + L1 + ... + Ln` —
as the length: with `progaddr = 0x100` and two sections of lengths 0x50
and 0x20, the embedded pass 1 produces the correctly-based section table
but hands `(0x100, 0x170)` to `debugger_prepare_run`, and 0x170 is not
the claimed total length 0x70. -/
theorem loader_pass1_passes_cursor_as_length :
    loader_pass1 0x100
        [["HCOPY  000000000050\n", "DALPHA 000010\n", "E000000\n"],
         ["HTWO   000000000020\n", "E000000\n"]] =
      some ([⟨"COPY  ", 0x100, 0x50, [⟨"ALPHA ", 0x110⟩]⟩,
             ⟨"TWO   ", 0x150, 0x20, []⟩], 0x100, 0x170) ∧
    (0x170 : Int) ≠ 0x50 + 0x20 := by
  decide

/-- Claim C8: of the five exits of `assembler_execute_assemble`, the three
early failures and the success path all remove the intermediate file, but
the pass-2 failure path (assembler.c:466-473) removes only the partial
.obj and .lst and leaves the .int file on disk — contradicting the claim
that the intermediate file is removed on every error path.  The boolean
component confirms the saved symbol table is promoted only on full
success. -/
theorem pass2_error_leaves_intermediate_file :
    assembler_execute_assemble_files false true true true = ([], false) ∧
    assembler_execute_assemble_files true false true true = ([], false) ∧
    assembler_execute_assemble_files true true false true = ([], false) ∧
    assembler_execute_assemble_files true true true false = (["a.int"], false) ∧
    assembler_execute_assemble_files true true true true = (["a.lst", "a.obj"], true) := by
  decide

/-- Claim C9: after the fetch-decode-execute phase of one run-loop
iteration succeeds with state `st2`, the loop dispatches exactly as
claimed (debugger.c:421-439): if PC has reached
`program_address + program_length` the iteration ends the run with the
registers zeroed, the program length zeroed and the breakpoint list
cleared (`debugger_initialize`, which leaves `program_address` as it is);
otherwise a breakpoint equal to PC ends the run retaining registers,
program bookkeeping and breakpoints; otherwise execution continues.  The
finish test takes priority over the breakpoint test. -/
theorem run_step_dispatch (st : DbgState) (m : Mem) (bps : List Int)
    (st2 : DbgState) (m2 : Mem)
    (h : debugger_execute_instruction st m = some (st2, m2)) :
    (st2.program_address + st2.program_length ≤ (regGet st2.registers REGISTER_PC : Int) →
      debugger_run_step st m bps =
        .finished ⟨List.replicate 10 0, st2.program_address, 0⟩ m2 []) ∧
    ((regGet st2.registers REGISTER_PC : Int) < st2.program_address + st2.program_length →
      bps.contains ((regGet st2.registers REGISTER_PC : Int)) = true →
      debugger_run_step st m bps = .breakpoint st2 m2 bps) ∧
    ((regGet st2.registers REGISTER_PC : Int) < st2.program_address + st2.program_length →
      bps.contains ((regGet st2.registers REGISTER_PC : Int)) = false →
      debugger_run_step st m bps = .running st2 m2 bps) := by
  refine ⟨fun hge => ?_, fun hlt hbp => ?_, fun hlt hbp => ?_⟩
  · rw [debugger_run_step, h]
    simp [debugger_run_check, debugger_init_state, hge]
  · rw [debugger_run_step, h]
    show debugger_run_check st2 m2 bps = _
    unfold debugger_run_check
    rw [if_neg (not_le.mpr hlt), if_pos hbp]
  · rw [debugger_run_step, h]
    show debugger_run_check st2 m2 bps = _
    unfold debugger_run_check
    rw [if_neg (not_le.mpr hlt), if_neg (by rw [hbp]; simp)]

/-- Witness for `run_step_dispatch`: a one-byte program of zeroed memory
(opcode 0x00 = LDA, SIC-compatible addressing) run from address 0 with
program length 1; after the instruction PC = 3 has passed the program end,
so the step finishes with cleared state. -/
theorem run_step_dispatch_witness :
    debugger_run_step ⟨List.replicate 10 0, 0, 1⟩ [] [] =
      .finished ⟨List.replicate 10 0, 0, 0⟩ [] [] :=
  (run_step_dispatch ⟨List.replicate 10 0, 0, 1⟩ [] []
    ⟨(List.replicate 10 0).set 8 3, 0, 1⟩ [] (by decide)).1 (by decide)

/-- Witness for `pass1_register_label_duplicate`: the register name `A`
used as a label on an empty working table. -/
theorem pass1_register_label_duplicate_witness :
    symbol_is_register "A" = true ∧
    assembler_pass1_handle_label symbol_new_table (some "A") 10 0 =
      .err ⟨.DUPLICATE_SYMBOL, 10, "A"⟩ :=
  ⟨by decide, pass1_register_label_duplicate symbol_new_table "A" 10 0 (by decide)⟩

end SicXE
